import Mathlib

/-!
Verification development for the ReachIQ growth-prediction core
(Backend/services/growth_prediction).  The Python source is shallowly
embedded: numeric values are modelled by exact rationals (and by real
numbers where the source applies the exponential decay curve), Python
dictionaries with optional keys by structures with Option fields, and
raising/catching exceptions by the Except monad.  Formatted explanation
strings are embedded as inductive values carrying the same payload that
the source interpolates into the corresponding f-string.
-/

namespace ReachIQ

/-- Clamp a value to the interval from lo to hi, as numpy clip and the
chained max/min calls in the source do (always called with lo below hi). -/
def clampBetween {α : Type} [LinearOrderedField α] (lo hi x : α) : α :=
  max lo (min hi x)

/-- Clamp a value to the unit interval, embedding np.clip(x, 0.0, 1.0). -/
def clamp01 {α : Type} [LinearOrderedField α] (x : α) : α :=
  max 0 (min 1 x)

/-- Round to four decimal places, embedding the Python round(x, 4) calls. -/
def rnd4 {α : Type} [LinearOrderedField α] [FloorRing α] (x : α) : α :=
  ((round (x * 10000) : ℤ) : α) / 10000

/-- Character-level lower casing of a string, embedding str.lower(). -/
def lowerStr (s : String) : String :=
  String.mk (s.data.map Char.toLower)

/-- Replace every space with an underscore, embedding replace(" ", "_"). -/
def underscoreSpaces (s : String) : String :=
  String.mk (s.data.map (fun c => if c = ' ' then '_' else c))

/-- Channel-name normalisation used across the source:
channel.lower().replace(" ", "_"). -/
def normalizeChannelName (c : String) : String :=
  underscoreSpaces (lowerStr c)

/-- Check that the first character list starts the second one. -/
def leadsWith : List Char → List Char → Bool
  | [], _ => true
  | _ :: _, [] => false
  | a :: as, b :: bs => a == b && leadsWith as bs

/-- Check that the first character list occurs inside the second one. -/
def hasSub (needle : List Char) : List Char → Bool
  | [] => needle.isEmpty
  | c :: rest => leadsWith needle (c :: rest) || hasSub needle rest

/-- Substring test, embedding the Python expression needle in hay. -/
def strContains (hay needle : String) : Bool :=
  hasSub needle.data hay.data

/-- CompanyProfile snapshot (spec section 3): the company-level feature
dictionary consumed by the core.  Scores are on the raw 0..100 scale. -/
structure CompanyFeatures where
  industry : String
  companySize : String
  intentScore : ℚ
  engagementScore : ℚ
  signalStrength : ℚ
  maxOutreachSteps : ℚ

/-- HistoricalEngagement (spec section 3).  Every part is optional: a
missing dictionary key is modelled by none.  The last-contact timestamp is
embedded as the whole number of days elapsed since that contact, which is
the only quantity the source derives from it. -/
structure HistoricalData where
  responseRate : Option ℚ
  lastContactDays : Option ℤ
  channelPerformance : Option (List (String × Option ℚ))

/-! Channel predictor (channel_predictor.py). -/

/-- Fixed per-channel baseline table of ChannelPredictor._get_channel_baseline. -/
def channel_baselines : List (String × ℚ) :=
  [("LinkedIn", 0.78), ("Email", 0.65), ("Phone", 0.82),
   ("WhatsApp", 0.71), ("Twitter", 0.52), ("Direct Message", 0.68)]

/-- Baseline effectiveness score for a channel, default 0.6. -/
def get_channel_baseline (channel : String) : ℚ :=
  (channel_baselines.lookup channel).getD 0.6

/-- Channel by industry affinity table of _get_industry_channel_affinity. -/
def industry_affinities : List (String × List (String × ℚ)) :=
  [("LinkedIn", [("Technology", 0.95), ("Finance", 0.92), ("Healthcare", 0.85),
                 ("Retail", 0.75), ("Manufacturing", 0.70)]),
   ("Email", [("Technology", 0.80), ("Finance", 0.88), ("Healthcare", 0.90),
              ("Retail", 0.82), ("Manufacturing", 0.85)]),
   ("Phone", [("Technology", 0.70), ("Finance", 0.85), ("Healthcare", 0.88),
              ("Retail", 0.75), ("Manufacturing", 0.80)]),
   ("WhatsApp", [("Technology", 0.60), ("Finance", 0.50), ("Healthcare", 0.65),
                 ("Retail", 0.75), ("Manufacturing", 0.72)]),
   ("Twitter", [("Technology", 0.72), ("Finance", 0.65), ("Healthcare", 0.45),
                ("Retail", 0.68), ("Manufacturing", 0.40)]),
   ("Direct Message", [("Technology", 0.75), ("Finance", 0.68), ("Healthcare", 0.60),
                       ("Retail", 0.72), ("Manufacturing", 0.65)])]

/-- Industry affinity lookup with the 0.7 default of the source. -/
def get_industry_channel_affinity (channel industry : String) : ℚ :=
  (((industry_affinities.lookup channel).getD []).lookup industry).getD 0.7

/-- Channel by company-size affinity table of _get_size_channel_affinity. -/
def size_affinities : List (String × List (String × ℚ)) :=
  [("LinkedIn", [("small", 0.75), ("medium", 0.85), ("large", 0.90), ("enterprise", 0.92)]),
   ("Email", [("small", 0.88), ("medium", 0.85), ("large", 0.82), ("enterprise", 0.80)]),
   ("Phone", [("small", 0.70), ("medium", 0.80), ("large", 0.85), ("enterprise", 0.88)]),
   ("WhatsApp", [("small", 0.80), ("medium", 0.72), ("large", 0.60), ("enterprise", 0.50)]),
   ("Twitter", [("small", 0.65), ("medium", 0.70), ("large", 0.75), ("enterprise", 0.68)]),
   ("Direct Message", [("small", 0.78), ("medium", 0.75), ("large", 0.70), ("enterprise", 0.65)])]

/-- Size affinity lookup with the 0.7 default of the source. -/
def get_size_channel_affinity (channel companySize : String) : ℚ :=
  (((size_affinities.lookup channel).getD []).lookup companySize).getD 0.7

/-- Embeds _get_historical_channel_performance: response rate of the
channel clamped to the unit interval when the per-channel map has an entry
for it (0.5 when the entry lacks a response rate), 0.5 otherwise. -/
def get_historical_channel_performance (channel : String) (h : HistoricalData) : ℚ :=
  let channelPerf := h.channelPerformance.getD []
  match channelPerf.lookup channel with
  | some entry => clamp01 (entry.getD 0.5)
  | none => 0.5

/-- The history-boost component of _score_channel.  The source initialises
history_boost to 0.0 and only calls _get_historical_channel_performance
when historical data with a channel_performance key is supplied. -/
def history_boost (channel : String) (hist : Option HistoricalData) : ℚ :=
  match hist with
  | some h =>
      if h.channelPerformance.isSome then get_historical_channel_performance channel h
      else 0
  | none => 0

/-- Composite channel score of ChannelPredictor._score_channel, clipped to
the unit interval at the end exactly as the source does. -/
def score_channel (channel : String) (cf : CompanyFeatures) (hist : Option HistoricalData) : ℚ :=
  let baselineScore := get_channel_baseline channel
  let industryBoost := get_industry_channel_affinity channel cf.industry
  let sizeBoost := get_size_channel_affinity channel cf.companySize
  let intentScore := cf.intentScore / 100
  let engagementScore := cf.engagementScore / 100
  let signalStrength := cf.signalStrength / 100
  let signalBoost := (intentScore + engagementScore + signalStrength) / 3
  let historyBoostValue := history_boost channel hist
  clamp01 (baselineScore * 0.3 + industryBoost * 0.25 + sizeBoost * 0.15 +
    signalBoost * 0.2 + historyBoostValue * 0.1)

/-- Reasoning string of _generate_channel_reasoning, embedded as the
selected template together with the payload interpolated into it. -/
inductive ChannelReasoning where
  | highlyRecommended (channel industry companySize : String) (score : ℚ) : ChannelReasoning
  | suitable (channel industry : String) (score : ℚ) : ChannelReasoning
  | secondaryOption (channel industry : String) (score : ℚ) : ChannelReasoning

/-- Banding of _generate_channel_reasoning: above 0.80 highly recommended,
above 0.65 suitable, otherwise a secondary option. -/
def generate_channel_reasoning (channel : String) (score : ℚ) (cf : CompanyFeatures) :
    ChannelReasoning :=
  if 0.80 < score then .highlyRecommended channel cf.industry cf.companySize score
  else if 0.65 < score then .suitable channel cf.industry score
  else .secondaryOption channel cf.industry score

/-- One ranked channel as returned by predict_top_channels. -/
structure ChannelScore where
  name : String
  score : ℚ
  reasoning : ChannelReasoning

/-- The fixed available channel set of ChannelPredictor. -/
def AVAILABLE_CHANNELS : List String :=
  ["LinkedIn", "Email", "Phone", "WhatsApp", "Twitter", "Direct Message"]

/-- Stable descending insertion used to embed the stable Python sorted
call with reverse=True: an element moves past strictly larger scores only,
so ties keep their original order. -/
def insert_desc (x : String × ℚ) : List (String × ℚ) → List (String × ℚ)
  | [] => [x]
  | y :: rest => if x.2 < y.2 then y :: insert_desc x rest else x :: y :: rest

/-- Stable descending sort by score. -/
def sort_channels_desc (l : List (String × ℚ)) : List (String × ℚ) :=
  l.foldr insert_desc []

/-- Embeds ChannelPredictor.predict_top_channels: score every available
channel, sort descending by score and keep the first numChannels entries,
rounding the reported score to four decimals. -/
def predict_top_channels (cf : CompanyFeatures) (hist : Option HistoricalData)
    (numChannels : ℕ) : List ChannelScore :=
  let scored := AVAILABLE_CHANNELS.map (fun ch => (ch, score_channel ch cf hist))
  let sorted := sort_channels_desc scored
  (sorted.take numChannels).map
    (fun p => ⟨p.1, rnd4 p.2, generate_channel_reasoning p.1 p.2 cf⟩)

/-! Sequence builder (sequence_builder.py). -/

/-- One stage of an outreach sequence.  Dictionary keys that a
caller-supplied sequence may omit are Option fields. -/
structure OutreachStep where
  step : ℕ
  channel : String
  channelScore : Option ℚ
  stepType : String
  displayName : Option String
  isPrimary : Option Bool

/-- Embeds SequenceBuilder.build_sequence: with fewer than two channels it
raises ValueError, otherwise it returns the fixed four-stage plan built
from the first two entries. -/
def build_sequence (topChannels : List ChannelScore) : Except String (List OutreachStep) :=
  match topChannels with
  | a :: b :: _ =>
      .ok
        [⟨1, a.name, some a.score, "initial", some (a.name ++ " Initial"), some true⟩,
         ⟨2, a.name, some a.score, "followup", some (a.name ++ " Follow-up"), some true⟩,
         ⟨3, b.name, some b.score, "initial", some (b.name ++ " Initial"), some false⟩,
         ⟨4, b.name, some b.score, "followup", some (b.name ++ " Follow-up"), some false⟩]
  | _ =>
      .error ("Sequence builder requires at least 2 top channels. Got: " ++
        toString topChannels.length)

/-- Placeholder channel used only to state list-indexing facts. -/
def dummyChannel : ChannelScore :=
  ⟨"", 0, .secondaryOption "" "" 0⟩

/-- The static legacy sequence used by the pipeline when dynamic channel
selection is disabled and no sequence is supplied. -/
def defaultOutreachSequence : List OutreachStep :=
  [⟨1, "LinkedIn", none, "initial", none, none⟩,
   ⟨2, "LinkedIn", none, "followup", none, none⟩,
   ⟨3, "Email", none, "initial", none, none⟩,
   ⟨4, "Email", none, "followup", none, none⟩]

/-! Probability engine (probability_engine.py). -/

/-- Channel-type encoding table of ProbabilityEngine. -/
def channel_encoding : List (String × ℚ) :=
  [("linkedin", 0.8), ("linkedin_followup", 0.6), ("email", 0.7),
   ("email_followup", 0.5), ("phone", 0.9), ("whatsapp", 0.75)]

/-- Embeds _normalize_score: divide by 100 and clip to the unit interval. -/
def normalize_score (score : ℚ) : ℚ :=
  clamp01 (score / 100)

/-- Embeds _compute_time_decay on the number of days elapsed since the
last contact; none stands for no recorded previous contact. -/
def compute_time_decay (daysSince : Option ℤ) : ℚ :=
  match daysSince with
  | none => 1
  | some d =>
      if d < 1 then 0.3
      else if d ≤ 3 then 0.7
      else if d ≤ 7 then 1
      else if d ≤ 14 then 0.8
      else 0.6

/-- Embeds _get_historical_response_rate with its 0.25 default. -/
def get_historical_response_rate (hist : Option HistoricalData) : ℚ :=
  match hist with
  | none => 0.25
  | some h => clamp01 (h.responseRate.getD 0.25)

/-- Embeds compute_step_features: the fixed-order eight-element feature
vector for one outreach step. -/
def compute_step_features (cf : CompanyFeatures) (stepNumber : ℕ) (channel : String)
    (hist : Option HistoricalData) : List ℚ :=
  [normalize_score cf.intentScore,
   normalize_score cf.signalStrength,
   normalize_score cf.engagementScore,
   ((channel_encoding.lookup (normalizeChannelName channel)).getD 0.5),
   1 / (stepNumber : ℚ),
   compute_time_decay (hist.bind (fun h => h.lastContactDays)),
   get_historical_response_rate hist,
   1 - ((stepNumber : ℚ) - 1) / cf.maxOutreachSteps]

/-- Embeds _compute_decay_factor, clamped to the interval 0.05 to 0.8. -/
def compute_decay_factor (cf : CompanyFeatures) (hist : Option HistoricalData) : ℚ :=
  let baseDecay : ℚ := 0.3
  let engagementScore := cf.engagementScore / 100
  let engagementAdjustment := -0.2 * engagementScore
  let responseAdjustment : ℚ :=
    match hist with
    | some h =>
        match h.responseRate with
        | some r => -0.15 * r
        | none => 0
    | none => 0
  let intentScore := cf.intentScore / 100
  let intentAdjustment := -0.1 * intentScore
  clampBetween 0.05 0.8 (baseDecay + engagementAdjustment + responseAdjustment + intentAdjustment)

/-- Embeds apply_decay_model: multiply the base probability by the
exponential decay factor and floor the result at 0.01. -/
noncomputable def apply_decay_model (baseProbability : ℚ) (stepNumber : ℕ)
    (cf : CompanyFeatures) (hist : Option HistoricalData) : ℝ :=
  let decayFactor := compute_decay_factor cf hist
  let decayMultiplier := Real.exp (-(decayFactor : ℝ) * ((stepNumber : ℝ) - 1))
  max ((baseProbability : ℝ) * decayMultiplier) 0.01

/-- Embeds compute_channel_effectiveness: the multiplier starts at 1.0 and
the three industry, size and intent conditions compose multiplicatively. -/
def compute_channel_effectiveness (channel : String) (cf : CompanyFeatures) : ℚ :=
  let channelNormalized := normalizeChannelName channel
  let industry := lowerStr cf.industry
  (1 : ℚ) *
    (if (strContains industry "tech" || strContains industry "software") &&
        strContains channelNormalized "linkedin" then 1.2 else 1) *
    (if (cf.companySize = "large" || cf.companySize = "enterprise") &&
        strContains channelNormalized "email" then 1.15 else 1) *
    (if (80 : ℚ) < cf.intentScore && channelNormalized = "phone" then 1.3 else 1)

/-! Scoring function adapter (growth_model.py). -/

/-- Embeds _compute_heuristic_probability: a weighted average of the first
three feature slots, clamped to the interval 0.05 to 0.95. -/
def heuristic_probability (features : List ℚ) : ℚ :=
  let intentScore := features.getD 0 0.5
  let signalStrength := features.getD 1 0.5
  let engagementScore := features.getD 2 0.5
  clampBetween 0.05 0.95 (0.4 * intentScore + 0.3 * signalStrength + 0.3 * engagementScore)

/-- The model manager state.  The wrapped classifier is a pluggable
scoring function; predictFails models the except branch in which the
classifier call raises and the heuristic fallback is used instead. -/
structure ModelManager where
  modelPath : String
  isLoaded : Bool
  classifierOutput : List ℚ → ℚ
  predictFails : Bool

/-- Classifier metadata returned by get_model_info. -/
structure ModelInfo where
  modelPath : String
  isLoaded : Bool

/-- Embeds get_model_info. -/
def get_model_info (m : ModelManager) : ModelInfo :=
  ⟨m.modelPath, m.isLoaded⟩

/-- Embeds predict_response_probability: raises RuntimeError when the
model is not loaded; otherwise returns the classifier probability clipped
to the unit interval, falling back to the clamped heuristic when the
classifier call fails. -/
def predict_response_probability (m : ModelManager) (features : List ℚ) :
    Except String ℚ :=
  if m.isLoaded then
    .ok (if m.predictFails then heuristic_probability features
         else clamp01 (m.classifierOutput features))
  else .error "Model is not loaded"

/-! Priority weighting engine (priority_weighting.py). -/

/-- Lower bound of the priority weight range. -/
def MIN_WEIGHT : ℚ := 0.3

/-- Upper bound of the priority weight range. -/
def MAX_WEIGHT : ℚ := 1.2

/-- Fixed decay multiplier applied to follow-up contacts. -/
def FOLLOWUP_DECAY_FACTOR : ℚ := 0.7

/-- Embeds _normalize_channel_score: linear interpolation of the unit
interval onto the weight range. -/
def normalize_channel_score (score : ℚ) : ℚ :=
  MIN_WEIGHT + score * (MAX_WEIGHT - MIN_WEIGHT)

/-- Embeds apply_channel_priority_weight.  The source clips each input
only when it is out of range, which coincides with clipping always; the
weighted product is multiplied by the follow-up decay when the stage type
lower-cases to followup, and the result is clipped to the unit interval. -/
def apply_channel_priority_weight (baseProbability channelScore : ℚ)
    (stepType : String) : ℚ :=
  let b := clamp01 baseProbability
  let s := clamp01 channelScore
  let channelWeight := normalize_channel_score s
  let weightedProbability := b * channelWeight
  let withDecay :=
    if lowerStr stepType = "followup" then weightedProbability * FOLLOWUP_DECAY_FACTOR
    else weightedProbability
  clamp01 withDecay

/-- One entry of the list returned by apply_weights_to_sequence: the
original stage dictionary together with the added keys. -/
structure WeightedStep where
  orig : OutreachStep
  baseProbability : ℚ
  channelWeight : ℚ
  stepType : String
  followupDecay : ℚ
  priorityAdjustedProbability : ℚ

/-- Embeds apply_weights_to_sequence: a length mismatch raises ValueError,
otherwise every stage is weighted in order. -/
def apply_weights_to_sequence (baseProbabilities : List ℚ)
    (sequence : List OutreachStep) : Except String (List WeightedStep) :=
  if baseProbabilities.length ≠ sequence.length then
    .error "Probability count does not match sequence length"
  else
    .ok (List.zipWith
      (fun si bp =>
        let channelScore := si.channelScore.getD 0.5
        let stepType := si.stepType
        let channelWeight := normalize_channel_score channelScore
        let adjusted := apply_channel_priority_weight bp channelScore stepType
        let decayApplied :=
          if lowerStr stepType = "followup" then FOLLOWUP_DECAY_FACTOR else (1 : ℚ)
        ⟨si, rnd4 bp, rnd4 channelWeight, stepType, decayApplied, rnd4 adjusted⟩)
      sequence baseProbabilities)

/-- Helper of the cumulative response-probability curve: acc carries the
running product of the no-response probabilities. -/
def cumulative_aux {α : Type} [LinearOrderedField α] [FloorRing α] (acc : α) :
    List α → List α
  | [] => []
  | p :: rest => rnd4 (1 - acc * (1 - p)) :: cumulative_aux (acc * (1 - p)) rest

/-- Cumulative probability of at least one response through each step,
embedding both compute_cumulative_probability of the priority weighting
engine and the identical loop of _compute_additional_metrics. -/
def cumulative_probability_curve {α : Type} [LinearOrderedField α] [FloorRing α]
    (ps : List α) : List α :=
  cumulative_aux 1 ps

/-! Sequence optimizer (sequence_optimizer.py). -/

/-- Baseline stopping threshold of SequenceOptimizer. -/
def DEFAULT_STOPPING_THRESHOLD : ℚ := 0.05

/-- Explanation produced by _generate_explanation, embedded as the branch
taken together with the numbers interpolated into its message; the
errorMessage case embeds the Error prefix string of the pipeline. -/
inductive StopReason (α : Type) where
  | noProbabilities : StopReason α
  | continueAll (totalSteps : ℕ) (threshold : ℚ) : StopReason α
  | stopAfterFirst (gainToStep2 : α) (threshold : ℚ) : StopReason α
  | onlyOneStep : StopReason α
  | optimalAt (step : ℕ) (prevGain currGain : α) (threshold : ℚ)
      (cumulativeSum : α) : StopReason α
  | errorMessage (msg : String) : StopReason α

/-- Result dictionary of find_optimal_stopping_point.  The two fields that
the empty-input early return leaves out of the dictionary are Option. -/
structure OptimizationResult (α : Type) where
  optimalStep : ℕ
  reason : StopReason α
  marginalGains : List α
  stoppingThreshold : ℚ
  totalExpectedProbability : Option α
  roiScore : Option α

/-- Embeds _compute_stopping_threshold: the 0.05 baseline with the intent,
engagement, size and history adjustments, clamped to 0.01 to 0.15. -/
def size_adjustment_table : List (String × ℚ) :=
  [("small", 0.01), ("medium", 0), ("large", -0.01), ("enterprise", -0.02)]

/-- Dynamic stopping threshold of _compute_stopping_threshold. -/
def compute_stopping_threshold (cf : CompanyFeatures)
    (hist : Option HistoricalData) : ℚ :=
  let baseThreshold := DEFAULT_STOPPING_THRESHOLD
  let intentScore := cf.intentScore / 100
  let intentAdjustment := -0.02 * intentScore
  let engagementScore := cf.engagementScore / 100
  let engagementAdjustment := -0.015 * engagementScore
  let sizeAdjustment := (size_adjustment_table.lookup cf.companySize).getD 0
  let historyAdjustment : ℚ :=
    match hist with
    | some h =>
        match h.responseRate with
        | some r => -0.01 * r
        | none => 0
    | none => 0
  clampBetween 0.01 0.15
    (baseThreshold + intentAdjustment + engagementAdjustment + sizeAdjustment +
      historyAdjustment)

/-- Embeds _compute_marginal_gains: consecutive differences followed by
the synthetic final element of half the last probability. -/
def compute_marginal_gains {α : Type} [LinearOrderedField α] (ps : List α) : List α :=
  (ps.zipWith (fun a b => a - b) ps.tail) ++
    (match ps.getLast? with
     | some l => [l * 0.5]
     | none => [])

/-- Embeds _find_stopping_point: the first gain below the threshold stops
one step before it; otherwise the low-probability floor scan at 0.05 takes
precedence over the cap of five steps. -/
def find_stopping_point {α : Type} [LinearOrderedField α] (marginalGains : List α)
    (threshold : ℚ) (stepProbabilities : List α) : ℕ :=
  match marginalGains.findIdx? (fun g => decide (g < (threshold : α))) with
  | some i => i + 1
  | none =>
      let optimalStep := min stepProbabilities.length 5
      match stepProbabilities.findIdx? (fun p => decide (p < (1/20 : α))) with
      | some i => max 1 i
      | none => optimalStep

/-- Embeds _generate_explanation, branch for branch. -/
def generate_explanation {α : Type} [LinearOrderedField α] (optimalStep : ℕ)
    (marginalGains : List α) (threshold : ℚ) (stepProbabilities : List α) :
    StopReason α :=
  if stepProbabilities.length ≤ optimalStep then
    .continueAll stepProbabilities.length threshold
  else if optimalStep = 1 then
    (if 1 < stepProbabilities.length then
      .stopAfterFirst (marginalGains.getD 0 0) threshold
     else .onlyOneStep)
  else
    .optimalAt optimalStep
      (if 1 < optimalStep then marginalGains.getD (optimalStep - 2) 0 else 0)
      (if optimalStep ≤ marginalGains.length then marginalGains.getD (optimalStep - 1) 0 else 0)
      threshold
      ((stepProbabilities.take optimalStep).sum)

/-- Embeds _compute_roi_score: total probability through the chosen steps
divided by the step count, 0 for zero steps. -/
def compute_roi_score {α : Type} [LinearOrderedField α] (probabilities : List α)
    (numSteps : ℕ) : α :=
  if numSteps = 0 then 0 else probabilities.sum / (numSteps : α)

/-- Embeds find_optimal_stopping_point: the empty-input early return,
followed by threshold, marginal gains, stopping scan, explanation and the
complementary-probability total. -/
def find_optimal_stopping_point {α : Type} [LinearOrderedField α] [FloorRing α]
    (stepProbabilities : List α) (cf : CompanyFeatures)
    (hist : Option HistoricalData) : OptimizationResult α :=
  if stepProbabilities.isEmpty then
    ⟨1, .noProbabilities, [], DEFAULT_STOPPING_THRESHOLD, none, none⟩
  else
    let stoppingThreshold := compute_stopping_threshold cf hist
    let marginalGains := compute_marginal_gains stepProbabilities
    let optimalStep := find_stopping_point marginalGains stoppingThreshold stepProbabilities
    let reason := generate_explanation optimalStep marginalGains stoppingThreshold
      stepProbabilities
    let noResponse := (stepProbabilities.take optimalStep).foldl
      (fun acc p => acc * (1 - p)) 1
    ⟨optimalStep, reason, marginalGains, stoppingThreshold,
      some (rnd4 (1 - noResponse)),
      some (compute_roi_score (stepProbabilities.take optimalStep) optimalStep)⟩

/-! Spec-side definitions, written from the wording of the specification
for the refinement claims. -/

/-- Marginal gain of the spec rule (spec section 4.6, item 2): for index i
up to n minus 2 the difference of consecutive probabilities, and for the
final index the synthetic halved last probability. -/
def spec_gain (ps : List ℚ) (i : ℕ) : ℚ :=
  if i + 1 < ps.length then ps.getD i 0 - ps.getD (i + 1) 0
  else ps.getD i 0 * (1/2)

/-- Stopping rule of the spec (spec section 4.6, item 3): first gain index
below the threshold stops at that index plus one; otherwise the first raw
probability below the 0.05 floor stops at that index clamped to at least
one; otherwise the cap of min n 5 applies. -/
def spec_stopping_decision (ps : List ℚ) (threshold : ℚ) : ℕ :=
  let gains := (List.range ps.length).map (spec_gain ps)
  match gains.findIdx? (fun g => decide (g < threshold)) with
  | some i => i + 1
  | none =>
      match ps.findIdx? (fun p => decide (p < 1/20)) with
      | some j => max 1 j
      | none => min ps.length 5

/-- Size adjustment exactly as the claim words it. -/
def spec_size_adjustment (companySize : String) : ℚ :=
  if companySize = "small" then 0.01
  else if companySize = "medium" then 0
  else if companySize = "large" then -0.01
  else if companySize = "enterprise" then -0.02
  else 0

/-- History adjustment exactly as the claim words it: minus 0.01 times the
historical response rate, 0 when there is no history. -/
def spec_history_adjustment (hist : Option HistoricalData) : ℚ :=
  match hist with
  | some h =>
      match h.responseRate with
      | some r => -0.01 * r
      | none => 0
  | none => 0

/-- Stopping threshold formula exactly as the claim words it. -/
def spec_stopping_threshold (cf : CompanyFeatures) (hist : Option HistoricalData) : ℚ :=
  clampBetween 0.01 0.15
    (0.05 + (-0.02) * (cf.intentScore / 100) + (-0.015) * (cf.engagementScore / 100) +
      spec_size_adjustment cf.companySize + spec_history_adjustment hist)

/-! Growth pipeline (growth_pipeline.py). -/

/-- Final per-step probability of _compute_step_probabilities: the
decay-adjusted probability times the channel effectiveness, clipped to the
unit interval. -/
noncomputable def final_step_probability (adjustedProbability : ℝ)
    (channelEffectiveness : ℚ) : ℝ :=
  clamp01 (adjustedProbability * (channelEffectiveness : ℝ))

/-- One step prediction dictionary of _compute_step_probabilities, with
the keys merged in later by the priority-weighting pass as Option. -/
structure StepPrediction where
  step : ℕ
  channel : String
  probability : ℝ
  baseProbability : ℚ
  decayAdjusted : ℝ
  channelEffectiveness : ℚ
  features : List ℚ
  channelScore : Option ℚ
  channelWeight : Option ℚ
  isPrimaryChannel : Option Bool

/-- Embeds _compute_step_probabilities: one prediction per sequence step,
in order, with the index i starting at 0 and step numbers at i plus 1.
The model raising propagates out of the loop. -/
noncomputable def compute_step_predictions (m : ModelManager) (cf : CompanyFeatures)
    (hist : Option HistoricalData) : List OutreachStep → ℕ →
    Except String (List StepPrediction)
  | [], _ => .ok []
  | stepInfo :: rest, i =>
      let stepNumber := i + 1
      let features := compute_step_features cf stepNumber stepInfo.channel hist
      match predict_response_probability m features with
      | .error e => .error e
      | .ok baseProbability =>
          let adjustedProbability := apply_decay_model baseProbability stepNumber cf hist
          let channelEffectiveness := compute_channel_effectiveness stepInfo.channel cf
          let finalProbability := final_step_probability adjustedProbability
            channelEffectiveness
          match compute_step_predictions m cf hist rest (i + 1) with
          | .error e => .error e
          | .ok preds =>
              .ok (⟨stepNumber, stepInfo.channel, rnd4 finalProbability,
                rnd4 baseProbability, rnd4 adjustedProbability,
                rnd4 channelEffectiveness, features, none, none, none⟩ :: preds)

/-- Embeds the merge loop of step 3 of predict_growth_curve: each step
prediction takes the priority-adjusted probability and the channel score,
weight and primary flag of the weighted stage. -/
noncomputable def merge_weighted (preds : List StepPrediction)
    (weighted : List WeightedStep) : List StepPrediction :=
  List.zipWith
    (fun p w =>
      { p with
          probability := ((w.priorityAdjustedProbability : ℚ) : ℝ),
          channelScore := some (w.orig.channelScore.getD 0.5),
          channelWeight := some w.channelWeight,
          isPrimaryChannel := some (w.orig.isPrimary.getD true) })
    preds weighted

/-- Embeds _compute_diminishing_rate: ratio of last to first probability,
1 for fewer than two steps, 0 for a zero first probability. -/
noncomputable def compute_diminishing_rate (probabilities : List ℝ) : ℝ :=
  if probabilities.length < 2 then 1
  else if probabilities.getD 0 0 = 0 then 0
  else probabilities.getD (probabilities.length - 1) 0 / probabilities.getD 0 0

/-- Auxiliary metrics map of _compute_additional_metrics. -/
structure Metrics where
  cumulativeProbability : List ℝ
  optimalProbability : ℝ
  diminishingReturnsRate : ℝ
  wastedEffortRatio : ℝ
  efficiencyScore : ℝ
  totalSteps : ℕ
  stepsSaved : ℕ

/-- Embeds _compute_additional_metrics; none stands for the empty
dictionary returned for an empty prediction list. -/
noncomputable def compute_additional_metrics (preds : List StepPrediction)
    (optimalStep : ℕ) : Option Metrics :=
  if preds.isEmpty then none
  else
    let probabilities := preds.map (fun p => p.probability)
    let cumulative := cumulative_probability_curve probabilities
    let optimalProbability :=
      if optimalStep ≤ cumulative.length then cumulative.getD (optimalStep - 1) 0
      else cumulative.getD (cumulative.length - 1) 0
    let diminishingRate := compute_diminishing_rate probabilities
    let preSum := (probabilities.take optimalStep).sum
    let wastedEffort :=
      if optimalStep < probabilities.length then
        (if 0 < preSum then (probabilities.drop optimalStep).sum / preSum else 0)
      else 0
    some ⟨cumulative, optimalProbability, rnd4 diminishingRate, rnd4 wastedEffort,
      rnd4 (optimalProbability / (optimalStep : ℝ)), preds.length,
      preds.length - optimalStep⟩

/-- Consolidated per-company result of predict_growth_curve.  Keys present
only on one of the success and error paths are Option fields; the
degraded-result reason carries the error message in its payload. -/
structure GrowthResult where
  companyId : String
  steps : List StepPrediction
  optimalStoppingPoint : ℕ
  stoppingReason : StopReason ℝ
  expectedTotalResponseProbability : ℝ
  roiScore : ℝ
  marginalGains : List ℝ
  stoppingThreshold : ℚ
  metrics : Option Metrics
  modelInfo : Option ModelInfo
  dynamicSequenceUsed : Option Bool
  error : Option String

/-- Embeds _create_error_response: the structurally valid degraded result
with fallback values and the error message embedded. -/
def create_error_response (companyId : String) (errorMessage : String) : GrowthResult :=
  ⟨companyId, [], 1, .errorMessage errorMessage, 0, 0, [], 0.05, none, none, none,
    some errorMessage⟩

/-- Embeds the body of the try block of predict_growth_curve: sequence
selection, step probabilities, optional priority weighting, the stopping
optimizer and the metrics, with every internal raise surfaced as an
Except error.  Reading the two dictionary keys that the empty-input
optimizer result omits raises KeyError in the source. -/
noncomputable def predict_growth_curve_body (m : ModelManager) (companyId : String)
    (cf : CompanyFeatures) (outreachSequence : Option (List OutreachStep))
    (hist : Option HistoricalData) (useDynamicChannels : Bool) :
    Except String GrowthResult :=
  let seqE : Except String (List OutreachStep) :=
    match outreachSequence with
    | none =>
        if useDynamicChannels then build_sequence (predict_top_channels cf hist 2)
        else .ok defaultOutreachSequence
    | some s => .ok s
  match seqE with
  | .error e => .error e
  | .ok sequence =>
      match compute_step_predictions m cf hist sequence 0 with
      | .error e => .error e
      | .ok preds0 =>
          let weightedE : Except String (List StepPrediction) :=
            if useDynamicChannels && sequence.any (fun st => st.channelScore.isSome) then
              match apply_weights_to_sequence
                  (preds0.map (fun p => p.baseProbability)) sequence with
              | .error e => .error e
              | .ok ws => .ok (merge_weighted preds0 ws)
            else .ok preds0
          match weightedE with
          | .error e => .error e
          | .ok preds =>
              let probabilities := preds.map (fun p => p.probability)
              let optimizationResult := find_optimal_stopping_point probabilities cf hist
              match optimizationResult.totalExpectedProbability,
                  optimizationResult.roiScore with
              | some totalExpected, some roi =>
                  .ok ⟨companyId, preds, optimizationResult.optimalStep,
                    optimizationResult.reason, totalExpected, roi,
                    optimizationResult.marginalGains,
                    optimizationResult.stoppingThreshold,
                    compute_additional_metrics preds optimizationResult.optimalStep,
                    some (get_model_info m), some useDynamicChannels, none⟩
              | _, _ => .error "KeyError: total_expected_probability"

/-- Embeds predict_growth_curve: the whole orchestration runs inside a try
block whose except clause returns _create_error_response, so the function
is total and never propagates an error to its caller. -/
noncomputable def predict_growth_curve (m : ModelManager) (companyId : String)
    (cf : CompanyFeatures) (outreachSequence : Option (List OutreachStep))
    (hist : Option HistoricalData) (useDynamicChannels : Bool) : GrowthResult :=
  match predict_growth_curve_body m companyId cf outreachSequence hist
      useDynamicChannels with
  | .ok result => result
  | .error e => create_error_response companyId e

/-! Concrete inputs used by the witness theorems. -/

/-- A concrete company profile for witnesses. -/
def cfWitness : CompanyFeatures :=
  ⟨"Technology", "medium", 60, 55, 50, 5⟩

/-- A concrete small-company profile for witnesses. -/
def cfSmall : CompanyFeatures :=
  ⟨"Retail", "small", 40, 30, 20, 5⟩

/-- A model manager whose model failed to load, for the degraded-path
witness. -/
def mgrUnloaded : ModelManager :=
  ⟨"models/polydeal_model.pkl", false, fun _ => 0.5, false⟩

/-- Historical data carrying a per-channel performance entry, for the
history-boost witness. -/
def histWitness : HistoricalData :=
  ⟨some 0.4, none, some [("Email", some 2)]⟩

/-- A concrete one-step outreach sequence for the degraded-path witness. -/
def seqWitness : List OutreachStep :=
  [⟨1, "Email", none, "initial", none, none⟩]

/-- A concrete probability list for the optimizer witnesses. -/
def psWitness : List ℚ :=
  [0.3, 0.2, 0.12, 0.11]

/-! Shared helper lemmas. -/

/-- The unit-interval clamp lands in the unit interval. -/
theorem clamp01_mem {α : Type} [LinearOrderedField α] (x : α) :
    0 ≤ clamp01 x ∧ clamp01 x ≤ 1 :=
  ⟨le_max_left 0 _, max_le zero_le_one (min_le_left 1 x)⟩

/-- Rounding is monotone. -/
theorem round_mono_aux {α : Type} [LinearOrderedField α] [FloorRing α] {x y : α}
    (h : x ≤ y) : round x ≤ round y := by
  rw [round_eq, round_eq]
  exact Int.floor_mono (by linarith)

/-- Rounding to four decimals keeps a unit-interval value in the unit
interval. -/
theorem rnd4_mem {α : Type} [LinearOrderedField α] [FloorRing α] {x : α}
    (h0 : 0 ≤ x) (h1 : x ≤ 1) : 0 ≤ rnd4 x ∧ rnd4 x ≤ 1 := by
  have hlo : (0 : ℤ) ≤ round (x * 10000) := by
    have := round_mono_aux (α := α) (x := 0) (y := x * 10000) (by nlinarith)
    simpa using this
  have hhi : round (x * 10000) ≤ 10000 := by
    have := round_mono_aux (α := α) (x := x * 10000) (y := 10000) (by nlinarith)
    simpa using this
  unfold rnd4
  constructor
  · apply div_nonneg _ (by norm_num)
    exact_mod_cast hlo
  · rw [div_le_one (by norm_num : (0 : α) < 10000)]
    exact_mod_cast hhi

/-- Shifting the spec gain one position down a cons cell. -/
theorem spec_gain_succ (a : ℚ) (ps : List ℚ) (i : ℕ) :
    spec_gain (a :: ps) (i + 1) = spec_gain ps i := by
  simp [spec_gain, Nat.succ_lt_succ_iff]

/-- Unfolding of the marginal-gain list over two leading elements. -/
theorem compute_marginal_gains_cons_cons (a b : ℚ) (tl : List ℚ) :
    compute_marginal_gains (a :: b :: tl) = (a - b) :: compute_marginal_gains (b :: tl) := by
  simp [compute_marginal_gains]

/-- The marginal-gain list of the source equals the indexed gains of the
spec rule on every non-empty input. -/
theorem compute_marginal_gains_eq_spec : ∀ (ps : List ℚ), ps ≠ [] →
    compute_marginal_gains ps = (List.range ps.length).map (spec_gain ps) := by
  intro ps
  induction ps with
  | nil => intro h; exact absurd rfl h
  | cons a tl ih =>
    intro _
    cases tl with
    | nil =>
      simp [compute_marginal_gains, spec_gain, List.range_succ]
      norm_num
    | cons b tl2 =>
      rw [compute_marginal_gains_cons_cons, ih (List.cons_ne_nil b tl2)]
      have hlen : (a :: b :: tl2).length = (b :: tl2).length + 1 := rfl
      rw [hlen, List.range_succ_eq_map, List.map_cons, List.map_map]
      congr 1
      · simp [spec_gain]
      · apply List.map_congr_left
        intro i _
        simp only [Function.comp_apply]
        exact (spec_gain_succ a (b :: tl2) i).symm

/-! Claim theorems. -/

/-- C1: for every non-empty list of step probabilities and any threshold,
the stopping decision of the source (the scan of _find_stopping_point over
the gains of _compute_marginal_gains, as wired up by
find_optimal_stopping_point) equals the stopping rule of the spec: the
first gain index below the threshold stops at that index plus one, and
otherwise the fallback of min n 5 applies unless some raw probability lies
below the absolute 0.05 floor, in which case the scan stops at the maximum
of 1 and that index. -/
theorem stopping_decision_matches_spec (ps : List ℚ) (t : ℚ) (cf : CompanyFeatures)
    (hist : Option HistoricalData) (hne : ps ≠ []) :
    find_stopping_point (compute_marginal_gains ps) t ps = spec_stopping_decision ps t ∧
    (find_optimal_stopping_point ps cf hist).optimalStep =
      spec_stopping_decision ps (compute_stopping_threshold cf hist) := by
  have hg := compute_marginal_gains_eq_spec ps hne
  have main : ∀ u : ℚ,
      find_stopping_point (compute_marginal_gains ps) u ps = spec_stopping_decision ps u := by
    intro u
    simp only [find_stopping_point, spec_stopping_decision, hg, Rat.cast_id]
  refine ⟨main t, ?_⟩
  cases ps with
  | nil => exact absurd rfl hne
  | cons p ps2 =>
    have hmain := main (compute_stopping_threshold cf hist)
    simp only [find_optimal_stopping_point, List.isEmpty_cons, Bool.false_eq_true,
      if_false]
    exact hmain

/-- Witness for C1 at a concrete probability list and threshold. -/
theorem stopping_decision_matches_spec_witness :
    find_stopping_point (compute_marginal_gains psWitness) 0.05 psWitness =
      spec_stopping_decision psWitness 0.05 ∧
    (find_optimal_stopping_point psWitness cfWitness none).optimalStep =
      spec_stopping_decision psWitness (compute_stopping_threshold cfWitness none) :=
  stopping_decision_matches_spec psWitness 0.05 cfWitness none
    (List.cons_ne_nil 0.3 [0.2, 0.12, 0.11])

/-- C5: the dynamic stopping threshold of the optimizer equals the 0.05
baseline plus the intent, engagement, size and history adjustments of the
spec formula, clamped to the interval 0.01 to 0.15, for every company
profile whose size class is one of the four documented values. -/
theorem stopping_threshold_formula (cf : CompanyFeatures) (hist : Option HistoricalData)
    (hsize : cf.companySize = "small" ∨ cf.companySize = "medium" ∨
      cf.companySize = "large" ∨ cf.companySize = "enterprise") :
    compute_stopping_threshold cf hist = spec_stopping_threshold cf hist := by
  have hsa : (size_adjustment_table.lookup cf.companySize).getD 0 =
      spec_size_adjustment cf.companySize := by
    rcases hsize with h | h | h | h <;> rw [h] <;> rfl
  simp only [compute_stopping_threshold, spec_stopping_threshold,
    DEFAULT_STOPPING_THRESHOLD, hsa]
  rcases hist with _ | ⟨rr, lc, cp⟩
  · simp only [spec_history_adjustment]
  · rcases rr with _ | r <;> simp only [spec_history_adjustment]

/-- Witness for C5 at a concrete small-company profile. -/
theorem stopping_threshold_formula_witness :
    compute_stopping_threshold cfSmall none = spec_stopping_threshold cfSmall none :=
  stopping_threshold_formula cfSmall none (Or.inl rfl)

/-- C8: for every channel priority score in the unit interval the priority
weight is the linear interpolation 0.3 plus score times 0.9, so a score of
0.0 yields exactly 0.3 and a score of 1.0 yields exactly 1.2. -/
theorem priority_weight_linear (s : ℚ) (h0 : 0 ≤ s) (h1 : s ≤ 1) :
    normalize_channel_score s = 0.3 + s * (1.2 - 0.3) ∧
    normalize_channel_score 0 = 0.3 ∧
    normalize_channel_score 1 = 1.2 := by
  refine ⟨rfl, ?_, ?_⟩ <;> norm_num [normalize_channel_score, MIN_WEIGHT, MAX_WEIGHT]

/-- Witness for C8 at score one half. -/
theorem priority_weight_linear_witness :
    normalize_channel_score 0.5 = 0.3 + 0.5 * (1.2 - 0.3) ∧
    normalize_channel_score 0 = 0.3 ∧
    normalize_channel_score 1 = 1.2 :=
  priority_weight_linear 0.5 (by norm_num) (by norm_num)

/-- C9: the optimizer called on an empty probability list returns the
early-exit dictionary with optimal step 1, the no-probabilities reason,
an empty marginal-gain list and the default threshold, and being a total
function it raises no exception. -/
theorem optimizer_empty_input (cf : CompanyFeatures) (hist : Option HistoricalData) :
    (find_optimal_stopping_point ([] : List ℚ) cf hist).optimalStep = 1 ∧
    (find_optimal_stopping_point ([] : List ℚ) cf hist).marginalGains = [] ∧
    (find_optimal_stopping_point ([] : List ℚ) cf hist).reason = .noProbabilities ∧
    (find_optimal_stopping_point ([] : List ℚ) cf hist).stoppingThreshold =
      DEFAULT_STOPPING_THRESHOLD :=
  ⟨rfl, rfl, rfl, rfl⟩

/-- Witness for C9 at a concrete company profile. -/
theorem optimizer_empty_input_witness :
    (find_optimal_stopping_point ([] : List ℚ) cfWitness none).optimalStep = 1 ∧
    (find_optimal_stopping_point ([] : List ℚ) cfWitness none).marginalGains = [] ∧
    (find_optimal_stopping_point ([] : List ℚ) cfWitness none).reason = .noProbabilities ∧
    (find_optimal_stopping_point ([] : List ℚ) cfWitness none).stoppingThreshold =
      DEFAULT_STOPPING_THRESHOLD :=
  optimizer_empty_input cfWitness none

/-- C10: the empty-input result of the optimizer omits the total expected
probability and the ROI score, while every non-empty input produces both
fields. -/
theorem optimizer_result_field_presence :
    (∀ (cf : CompanyFeatures) (hist : Option HistoricalData),
      (find_optimal_stopping_point ([] : List ℚ) cf hist).totalExpectedProbability =
        none ∧
      (find_optimal_stopping_point ([] : List ℚ) cf hist).roiScore = none) ∧
    (∀ (ps : List ℚ) (cf : CompanyFeatures) (hist : Option HistoricalData), ps ≠ [] →
      (find_optimal_stopping_point ps cf hist).totalExpectedProbability.isSome = true ∧
      (find_optimal_stopping_point ps cf hist).roiScore.isSome = true) := by
  refine ⟨fun cf hist => ⟨rfl, rfl⟩, ?_⟩
  intro ps cf hist hne
  cases ps with
  | nil => exact absurd rfl hne
  | cons p ps2 =>
    simp only [find_optimal_stopping_point, List.isEmpty_cons, Bool.false_eq_true,
      if_false]
    exact ⟨rfl, rfl⟩

/-- Witness for C10 at a concrete non-empty probability list. -/
theorem optimizer_result_field_presence_witness :
    (find_optimal_stopping_point psWitness cfWitness none).totalExpectedProbability.isSome
      = true ∧
    (find_optimal_stopping_point psWitness cfWitness none).roiScore.isSome = true :=
  optimizer_result_field_presence.2 psWitness cfWitness none
    (List.cons_ne_nil 0.3 [0.2, 0.12, 0.11])

/-- C6: for every top-channels list with at least two entries the builder
returns exactly four stages whose first two carry the name and score of
the first input channel, whose last two carry those of the second input
channel, whose step indices are 1 to 4, and whose stage types alternate
initial then followup within each channel pair. -/
theorem build_sequence_shape (cs : List ChannelScore) (h : 2 ≤ cs.length) :
    ∃ stages, build_sequence cs = .ok stages ∧
      stages.length = 4 ∧
      stages.map (fun st => st.step) = [1, 2, 3, 4] ∧
      stages.map (fun st => st.channel) =
        [(cs.getD 0 dummyChannel).name, (cs.getD 0 dummyChannel).name,
         (cs.getD 1 dummyChannel).name, (cs.getD 1 dummyChannel).name] ∧
      stages.map (fun st => st.channelScore) =
        [some (cs.getD 0 dummyChannel).score, some (cs.getD 0 dummyChannel).score,
         some (cs.getD 1 dummyChannel).score, some (cs.getD 1 dummyChannel).score] ∧
      stages.map (fun st => st.stepType) = ["initial", "followup", "initial", "followup"] := by
  cases cs with
  | nil => simp at h
  | cons a tl =>
    cases tl with
    | nil => simp at h
    | cons b rest => exact ⟨_, rfl, rfl, rfl, rfl, rfl, rfl⟩

/-- Witness for C6 at a concrete two-channel list. -/
theorem build_sequence_shape_witness :
    ∃ stages,
      build_sequence [⟨"LinkedIn", 0.82, .suitable "LinkedIn" "Technology" 0.82⟩,
        ⟨"Email", 0.61, .suitable "Email" "Technology" 0.61⟩] = .ok stages ∧
      stages.length = 4 :=
  match build_sequence_shape
      [⟨"LinkedIn", 0.82, .suitable "LinkedIn" "Technology" 0.82⟩,
       ⟨"Email", 0.61, .suitable "Email" "Technology" 0.61⟩] (by simp) with
  | ⟨stages, hok, hlen, _⟩ => ⟨stages, hok, hlen⟩

/-- C7: every input list with fewer than two channels makes the builder
fail with the ValueError of the source, via an error value and never a
partial sequence. -/
theorem build_sequence_rejects_short (cs : List ChannelScore) (h : cs.length < 2) :
    ∃ msg, build_sequence cs = .error msg := by
  cases cs with
  | nil => exact ⟨_, rfl⟩
  | cons a tl =>
    cases tl with
    | nil => exact ⟨_, rfl⟩
    | cons b rest => exact absurd h (by simp)

/-- Witness for C7 at the empty channel list. -/
theorem build_sequence_rejects_short_witness :
    ∃ msg, build_sequence [] = .error msg :=
  build_sequence_rejects_short [] (by simp)

/-- C2 counterexample: when no historical data is supplied at all, the
history-boost component of the channel score is 0, not the 0.5 the claim
asserts for every case without per-channel data. -/
theorem history_boost_counterexample :
    history_boost "LinkedIn" none = 0 ∧ history_boost "LinkedIn" none ≠ 0.5 := by
  refine ⟨rfl, ?_⟩
  simp only [history_boost]
  norm_num

/-- C2 amended: the history boost equals the response rate of the channel
clamped to the unit interval when the supplied channel-performance map has
an entry for the channel carrying a rate, 0.5 when that entry lacks a rate
or the map has no entry for the channel, and 0 when no historical data or
no channel-performance map is supplied at all. -/
theorem history_boost_characterization (channel : String) (hist : Option HistoricalData) :
    (hist = none → history_boost channel hist = 0) ∧
    (∀ h, hist = some h → h.channelPerformance = none →
      history_boost channel hist = 0) ∧
    (∀ h perf r, hist = some h → h.channelPerformance = some perf →
      perf.lookup channel = some (some r) →
      history_boost channel hist = clamp01 r) ∧
    (∀ h perf, hist = some h → h.channelPerformance = some perf →
      perf.lookup channel = some none →
      history_boost channel hist = 0.5) ∧
    (∀ h perf, hist = some h → h.channelPerformance = some perf →
      perf.lookup channel = none →
      history_boost channel hist = 0.5) := by
  refine ⟨?_, ?_, ?_, ?_, ?_⟩
  · intro he
    subst he
    rfl
  · intro h he hcp
    subst he
    simp [history_boost, hcp]
  · intro h perf r he hcp hlk
    subst he
    simp [history_boost, get_historical_channel_performance, hcp, hlk]
  · intro h perf he hcp hlk
    subst he
    simp [history_boost, get_historical_channel_performance, hcp, hlk]
    norm_num [clamp01]
  · intro h perf he hcp hlk
    subst he
    simp [history_boost, get_historical_channel_performance, hcp, hlk]

/-- Witness for the amended C2 at a concrete per-channel entry. -/
theorem history_boost_characterization_witness :
    history_boost "Email" (some histWitness) = clamp01 2 :=
  (history_boost_characterization "Email" (some histWitness)).2.2.1 histWitness
    [("Email", some 2)] 2 rfl rfl rfl

/-- Bounds of the heuristic fallback probability. -/
theorem heuristic_probability_mem (features : List ℚ) :
    0 ≤ heuristic_probability features ∧ heuristic_probability features ≤ 1 := by
  simp only [heuristic_probability, clampBetween]
  constructor
  · exact le_trans (by norm_num) (le_max_left _ _)
  · exact max_le (by norm_num) (le_trans (min_le_left _ _) (by norm_num))

/-- The decay factor is nonnegative because of its lower clamp. -/
theorem compute_decay_factor_nonneg (cf : CompanyFeatures)
    (hist : Option HistoricalData) : 0 ≤ compute_decay_factor cf hist := by
  simp only [compute_decay_factor, clampBetween]
  exact le_trans (by norm_num) (le_max_left _ _)

/-- Cumulative-curve elements stay in the unit interval whenever the
running no-response product does. -/
theorem cumulative_aux_mem {α : Type} [LinearOrderedField α] [FloorRing α] :
    ∀ (ps : List α) (acc : α), 0 ≤ acc → acc ≤ 1 →
      (∀ p ∈ ps, 0 ≤ p ∧ p ≤ 1) →
      ∀ c ∈ cumulative_aux acc ps, 0 ≤ c ∧ c ≤ 1 := by
  intro ps
  induction ps with
  | nil =>
    intro acc _ _ _ c hc
    simp [cumulative_aux] at hc
  | cons p rest ih =>
    intro acc h0 h1 hmem c hc
    obtain ⟨hp0, hp1⟩ := hmem p (List.mem_cons_self p rest)
    have hacc0 : 0 ≤ acc * (1 - p) := mul_nonneg h0 (by linarith)
    have hacc1 : acc * (1 - p) ≤ 1 := mul_le_one₀ h1 (by linarith) (by linarith)
    simp only [cumulative_aux] at hc
    rcases List.mem_cons.mp hc with hceq | hcrest
    · subst hceq
      exact rnd4_mem (by linarith) (by linarith)
    · exact ih (acc * (1 - p)) hacc0 hacc1
        (fun q hq => hmem q (List.mem_cons_of_mem p hq)) c hcrest

/-- C3: every probability-typed field the core computes stays in the unit
interval: the channel score, the base probability returned by the scoring
adapter, the decay-adjusted probability for any one-based step, the
priority-adjusted probability, the final per-step probability, the
four-decimal rounding the pipeline stores, and every cumulative
probability.  The model works in exact arithmetic, in which not-a-number
and infinite values do not exist. -/
theorem probability_fields_in_unit_interval :
    (∀ (channel : String) (cf : CompanyFeatures) (hist : Option HistoricalData),
      0 ≤ score_channel channel cf hist ∧ score_channel channel cf hist ≤ 1) ∧
    (∀ (m : ModelManager) (features : List ℚ) (p : ℚ),
      predict_response_probability m features = .ok p → 0 ≤ p ∧ p ≤ 1) ∧
    (∀ (b : ℚ) (s : ℕ) (cf : CompanyFeatures) (hist : Option HistoricalData),
      0 ≤ b → b ≤ 1 → 1 ≤ s →
      0 ≤ apply_decay_model b s cf hist ∧ apply_decay_model b s cf hist ≤ 1) ∧
    (∀ (b sc : ℚ) (st : String),
      0 ≤ apply_channel_priority_weight b sc st ∧
        apply_channel_priority_weight b sc st ≤ 1) ∧
    (∀ (adj : ℝ) (eff : ℚ),
      0 ≤ final_step_probability adj eff ∧ final_step_probability adj eff ≤ 1) ∧
    (∀ x : ℝ, 0 ≤ x → x ≤ 1 → 0 ≤ rnd4 x ∧ rnd4 x ≤ 1) ∧
    (∀ ps : List ℝ, (∀ p ∈ ps, 0 ≤ p ∧ p ≤ 1) →
      ∀ c ∈ cumulative_probability_curve ps, 0 ≤ c ∧ c ≤ 1) := by
  refine ⟨?_, ?_, ?_, ?_, ?_, ?_, ?_⟩
  · intro channel cf hist
    simp only [score_channel]
    exact clamp01_mem _
  · intro m features p hok
    cases hm : m.isLoaded with
    | false => simp [predict_response_probability, hm] at hok
    | true =>
      simp only [predict_response_probability, hm, if_true, Except.ok.injEq] at hok
      subst hok
      cases m.predictFails with
      | false =>
        simp only [Bool.false_eq_true, if_false]
        exact clamp01_mem _
      | true =>
        simp only [if_true]
        exact heuristic_probability_mem features
  · intro b s cf hist hb0 hb1 hs
    have hd : (0 : ℝ) ≤ (compute_decay_factor cf hist : ℝ) := by
      exact_mod_cast compute_decay_factor_nonneg cf hist
    have h1s : (1 : ℝ) ≤ (s : ℝ) := by exact_mod_cast hs
    have hexp0 : 0 ≤ Real.exp (-(compute_decay_factor cf hist : ℝ) * ((s : ℝ) - 1)) :=
      (Real.exp_pos _).le
    have hexp1 : Real.exp (-(compute_decay_factor cf hist : ℝ) * ((s : ℝ) - 1)) ≤ 1 := by
      apply Real.exp_le_one_iff.mpr
      nlinarith
    simp only [apply_decay_model]
    constructor
    · exact le_trans (by norm_num) (le_max_right _ _)
    · apply max_le _ (by norm_num)
      exact mul_le_one₀ (by exact_mod_cast hb1) hexp0 hexp1
  · intro b sc st
    simp only [apply_channel_priority_weight]
    exact clamp01_mem _
  · intro adj eff
    simp only [final_step_probability]
    exact clamp01_mem _
  · intro x h0 h1
    exact rnd4_mem h0 h1
  · intro ps hmem
    simp only [cumulative_probability_curve]
    exact cumulative_aux_mem ps 1 zero_le_one le_rfl hmem

/-- Witness for C3 at concrete inputs for the decay, rounding and
cumulative components. -/
theorem probability_fields_in_unit_interval_witness :
    (0 ≤ apply_decay_model 0.5 1 cfWitness none ∧
      apply_decay_model 0.5 1 cfWitness none ≤ 1) ∧
    (0 ≤ rnd4 ((1 : ℝ) / 2) ∧ rnd4 ((1 : ℝ) / 2) ≤ 1) ∧
    (∀ c ∈ cumulative_probability_curve [(0.3 : ℝ), 0.2], 0 ≤ c ∧ c ≤ 1) := by
  refine ⟨probability_fields_in_unit_interval.2.2.1 0.5 1 cfWitness none
      (by norm_num) (by norm_num) le_rfl,
    probability_fields_in_unit_interval.2.2.2.2.2.1 ((1 : ℝ) / 2)
      (by norm_num) (by norm_num),
    probability_fields_in_unit_interval.2.2.2.2.2.2 [0.3, 0.2] ?_⟩
  intro p hp
  simp only [List.mem_cons, List.not_mem_nil, or_false] at hp
  rcases hp with h | h <;> subst h <;> norm_num

/-- C4: whenever any step of the orchestration of predict_growth_curve
fails, the pipeline converts the failure into the structurally well-formed
degraded result of _create_error_response: optimal stopping point 1, zero
total probability and ROI, empty steps and marginal gains, and the error
message embedded.  The embedding of predict_growth_curve is a total
function, so it never propagates an error to its caller. -/
theorem pipeline_absorbs_errors (m : ModelManager) (companyId : String)
    (cf : CompanyFeatures) (seq : Option (List OutreachStep))
    (hist : Option HistoricalData) (useDynamicChannels : Bool) (msg : String)
    (h : predict_growth_curve_body m companyId cf seq hist useDynamicChannels =
      .error msg) :
    predict_growth_curve m companyId cf seq hist useDynamicChannels =
      create_error_response companyId msg ∧
    (create_error_response companyId msg).optimalStoppingPoint = 1 ∧
    (create_error_response companyId msg).expectedTotalResponseProbability = 0 ∧
    (create_error_response companyId msg).roiScore = 0 ∧
    (create_error_response companyId msg).steps = [] ∧
    (create_error_response companyId msg).marginalGains = [] ∧
    (create_error_response companyId msg).stoppingReason = .errorMessage msg ∧
    (create_error_response companyId msg).error = some msg := by
  refine ⟨?_, rfl, rfl, rfl, rfl, rfl, rfl, rfl⟩
  unfold predict_growth_curve
  rw [h]

/-- Witness for C4: a model manager whose model is not loaded makes the
first step prediction raise, and the pipeline returns the degraded
result. -/
theorem pipeline_absorbs_errors_witness :
    predict_growth_curve mgrUnloaded "c1" cfWitness (some seqWitness) none true =
      create_error_response "c1" "Model is not loaded" :=
  (pipeline_absorbs_errors mgrUnloaded "c1" cfWitness (some seqWitness) none true
    "Model is not loaded" rfl).1

end ReachIQ
